import Mathlib

/-!
Verification development for the Copilot Studio cost-projection calculator.

The source is TypeScript; all `number` arithmetic is modelled over `ℚ`
(exact rationals).  `Math.round` is round-half-up (`⌊q + 1/2⌋`), `Math.ceil`
is `⌈q⌉`.  Parsed `"S/C"` complexity-ratio strings are modelled as the pair
of parsed integers.  Each definition carries a comment naming the source
location it embeds.

Namespaces:
* `Calcs` — `src/utils/calculations.ts` (identical inline copy in the first
  document of `unnamed/part_001`);
* `P0` — the config-driven 36-month projector snapshot (`unnamed/part_000`,
  whose `monthlyData` also appears in the second document of
  `unnamed/part_001`);
* `P2` — the agent-portfolio 36-month projector snapshot (`unnamed/part_002`).
-/

/-- JavaScript `Math.round` on an exact rational: round half up. -/
def jsRound (q : ℚ) : ℤ := ⌊q + 1/2⌋

/-- JavaScript `Math.ceil` on an exact rational. -/
def jsCeil (q : ℚ) : ℤ := ⌈q⌉

namespace Calcs

/-- `calculations.ts` line 390. -/
def PAYG_RATE : ℚ := 1/100

/-- `calculations.ts` line 391. -/
def PACK_COST : ℚ := 200

/-- `calculations.ts` line 392. -/
def PACK_CREDITS : ℚ := 25000

/-- `calculations.ts` line 393. -/
def M365_COPILOT_COST : ℚ := 30

/-- `calculations.ts` line 394: derived, not hardcoded. -/
def BREAKEVEN_CREDITS : ℚ := M365_COPILOT_COST / PAYG_RATE

/-- `calculations.ts` `CalculationParams`; `complexityRatio` is the pair of
integers parsed from the `"S/C"` string. -/
structure CalculationParams where
  userCount : ℚ
  complexityRatio : ℕ × ℕ
  simpleCreditsPerUser : ℚ
  complexCreditsPerUser : ℚ
  year1GrowthRate : ℚ
  adoptionCeiling : ℚ
  steadyStateAdoption : ℚ

/-- `calculations.ts` `MonthlyData` record. -/
structure MonthlyData where
  month : ℕ
  year : String
  adoption : ℚ
  activeUsers : ℤ
  totalCredits : ℚ
  paygCost : ℤ
  packCost : ℚ
  m365Cost : ℚ
  savings : ℤ

/-- `calculations.ts` line 421: `(simpleCreditsPerUser * simplePercent) +
(complexCreditsPerUser * complexPercent)`, with the percents parsed from the
ratio string and divided by 100. -/
def creditsPerUserMonth (p : CalculationParams) : ℚ :=
  p.simpleCreditsPerUser * ((p.complexityRatio.1 : ℚ) / 100) +
    p.complexCreditsPerUser * ((p.complexityRatio.2 : ℚ) / 100)

/-- One loop-body iteration of `calculateMonthlyData` (`calculations.ts`
lines 420-440), given the month and the already-updated `currentAdoption`. -/
def mkRec (p : CalculationParams) (month : ℕ) (adoption : ℚ) : MonthlyData :=
  let activeUsers := jsRound (p.userCount * (adoption / 100))
  let totalCredits := (activeUsers : ℚ) * creditsPerUserMonth p
  let paygCost := totalCredits * PAYG_RATE
  let packsNeeded := jsCeil (totalCredits / PACK_CREDITS)
  let m365Cost := p.userCount * M365_COPILOT_COST
  { month := month
    year := if month ≤ 12 then "Year 1" else "Year 2"
    adoption := adoption
    activeUsers := activeUsers
    totalCredits := totalCredits
    paygCost := jsRound paygCost
    packCost := (packsNeeded : ℚ) * PACK_COST
    m365Cost := m365Cost
    savings := jsRound (m365Cost - paygCost) }

/-- `calculations.ts` lines 416-418: the `currentAdoption` update — only
recomputed while `month <= 12`, frozen afterwards. -/
def adoptionStep (p : CalculationParams) (month : ℕ) (cur : ℚ) : ℚ :=
  if month ≤ 12 then
    min p.adoptionCeiling (10 + ((month : ℚ) - 1) * p.year1GrowthRate)
  else cur

/-- The `for (month = 1; month <= 24; ...)` loop of `calculateMonthlyData`,
with the remaining iteration count as fuel and the `currentAdoption`
accumulator threaded through. -/
def cmdLoop (p : CalculationParams) : ℕ → ℕ → ℚ → List MonthlyData
  | 0, _, _ => []
  | fuel + 1, month, cur =>
    let adoption := adoptionStep p month cur
    mkRec p month adoption :: cmdLoop p fuel (month + 1) adoption

/-- `calculations.ts` lines 407-444: `currentAdoption` starts at 10,
months 1..24. -/
def calculateMonthlyData (p : CalculationParams) : List MonthlyData :=
  cmdLoop p 24 1 10

/-- `calculations.ts` `ScenarioData` record. -/
structure ScenarioData where
  users : ℚ
  agents : ℚ
  ratio : ℕ × ℕ
  activeUsers : ℤ
  creditsPerUserMonth : ℤ
  monthlyPayg : ℤ
  yearlyPayg : ℤ
  yearlyM365 : ℚ
  savings : ℤ
  savingsPercent : ℤ

/-- Unrounded credits per user per month for a parsed ratio pair
(`calculations.ts` line 464). -/
def scCred (simple complex : ℚ) (ratio : ℕ × ℕ) : ℚ :=
  simple * ((ratio.1 : ℚ) / 100) + complex * ((ratio.2 : ℚ) / 100)

/-- One pushed record of `calculateScenarioComparison`
(`calculations.ts` lines 460-482). -/
def mkScenario (simple complex steady : ℚ) (users agents : ℚ)
    (ratio : ℕ × ℕ) : ScenarioData :=
  let activeUsers := jsRound (users * (steady / 100))
  let cred := scCred simple complex ratio
  let totalCreditsMonth := (activeUsers : ℚ) * cred
  let totalCreditsYear := totalCreditsMonth * 12
  let paygYearlyCost := totalCreditsYear * PAYG_RATE
  let m365YearlyCost := users * M365_COPILOT_COST * 12
  { users := users
    agents := agents
    ratio := ratio
    activeUsers := activeUsers
    creditsPerUserMonth := jsRound cred
    monthlyPayg := jsRound (totalCreditsMonth * PAYG_RATE)
    yearlyPayg := jsRound paygYearlyCost
    yearlyM365 := m365YearlyCost
    savings := jsRound (m365YearlyCost - paygYearlyCost)
    savingsPercent := jsRound ((m365YearlyCost - paygYearlyCost) / m365YearlyCost * 100) }

/-- `calculations.ts` lines 447-488: the triple-nested loop, outer users,
middle agent labels, inner ratios. -/
def calculateScenarioComparison (userScenarios agentScenarios : List ℚ)
    (complexityScenarios : List (ℕ × ℕ))
    (simple complex steady : ℚ) : List ScenarioData :=
  userScenarios.flatMap fun u =>
    agentScenarios.flatMap fun a =>
      complexityScenarios.map fun r => mkScenario simple complex steady u a r

end Calcs

/-- Rollout stage (`part_000`/`part_002` `Stage` interface). -/
structure Stage where
  name : String
  users : ℚ
  month : ℕ
  dau : ℚ
  phase : String
deriving DecidableEq

/-- Agent record (`part_000`/`part_002` `Agent` interface). -/
structure Agent where
  id : ℕ
  name : String
  purpose : String
  conversationsPerDay : ℚ
  turns : ℚ
  generativeRatio : ℚ
  actions : ℚ
  tenantGraph : Bool
  deployMonth : ℕ
  segments : List String
  color : String
  enabled : Bool
deriving DecidableEq

/-- The default stage list (identical in `part_000` lines 73-81 and
`part_002` lines 68-76). -/
def defaultStages : List Stage :=
  [ ⟨"Pilot (HQ)", 130, 1, 0.45, "Pilot"⟩,
    ⟨"HQ Expansion", 500, 4, 0.40, "Expansion"⟩,
    ⟨"Full HQ", 1000, 7, 0.38, "Expansion"⟩,
    ⟨"HQ + Mgmt", 2500, 10, 0.35, "Management"⟩,
    ⟨"All Mgmt", 6000, 13, 0.33, "Management"⟩,
    ⟨"Mgmt + Stores", 12000, 19, 0.30, "Stores"⟩,
    ⟨"Near-Complete", 30000, 31, 0.28, "Enterprise"⟩ ]

/-- The default agent portfolio (identical in `part_000` lines 103-174 and
`part_002` lines 94-165). -/
def defaultAgents : List Agent :=
  [ ⟨1, "HR Helper", "Benefits, PTO, policies", 1.5, 4, 0.50, 0.5, false, 1,
      ["HQ", "Management", "Stores", "All"], "#8b5cf6", true⟩,
    ⟨2, "IT Helpdesk", "Password reset, access requests", 1.0, 5, 0.60, 2, false, 1,
      ["HQ", "Management", "Stores", "All"], "#3b82f6", true⟩,
    ⟨3, "Document Search", "Policy docs, manuals", 1.0, 6, 0.80, 1, true, 4,
      ["HQ", "Management"], "#f59e0b", true⟩,
    ⟨4, "Document Translation", "Translate PPT, Word, Excel documents", 0.75, 4, 0.95, 2.5, false, 5,
      ["HQ", "Management"], "#22c55e", true⟩,
    ⟨5, "Document Summarization", "Summarize PPT, Word, Excel documents", 1.5, 5, 0.85, 1.5, false, 2,
      ["HQ", "Management", "Stores", "All"], "#ef4444", true⟩ ]

/-- A `Stage` value standing for JavaScript `undefined` in the `|| stages[0]`
fallbacks; never reached on a non-empty stage list. -/
def undefStage : Stage := ⟨"", 0, 0, 0, ""⟩

/-- `interpolateValue` (`part_000` lines 270-285, `part_002` lines 211-226,
`part_001` second document lines 648-663 — identical):
`beforeStage` is the last element of `stagesBefore`, `afterStage` the first
of `stagesAfter`; flat extrapolation when one is missing, otherwise
`before + (after − before) × (M − before.month)/(after.month − before.month)`.
The both-missing case only arises for an empty stage list, where the source
would dereference `undefined`; it is mapped to 0 here and excluded by the
non-emptiness hypotheses of every theorem that uses it. -/
def interpolateValue (month : ℕ) (stagesBefore stagesAfter : List Stage)
    (getValue : Stage → ℚ) : ℚ :=
  match stagesBefore.getLast?, stagesAfter.head? with
  | none, some afterStage => getValue afterStage
  | some beforeStage, none => getValue beforeStage
  | some beforeStage, some afterStage =>
    let monthRange : ℚ := (afterStage.month : ℚ) - (beforeStage.month : ℚ)
    let monthProgress : ℚ := (month : ℚ) - (beforeStage.month : ℚ)
    let ratio := monthProgress / monthRange
    getValue beforeStage + (getValue afterStage - getValue beforeStage) * ratio
  | none, none => 0

/-- `stages.filter(s => s.month <= month)` (`part_000` line 294,
`part_002` line 237). -/
def stagesBeforeM (stages : List Stage) (month : ℕ) : List Stage :=
  stages.filter fun s => decide (s.month ≤ month)

/-- `stages.filter(s => s.month > month)` (`part_000` line 295,
`part_002` line 238). -/
def stagesAfterM (stages : List Stage) (month : ℕ) : List Stage :=
  stages.filter fun s => decide (month < s.month)

namespace P0

/-- `part_000` `Config` interface (lines 14-23). -/
structure Config where
  conversationsPerDay : ℚ
  turnsPerConversation : ℚ
  generativeRatio : ℚ
  actionsPerConversation : ℚ
  peakMultiplier : ℚ
  m365CopilotPrice : ℚ
  autonomousActionRatio : ℚ
  hybridM365Users : ℚ

/-- `part_000` lines 84-93: default configuration state. -/
def defaultConfig : Config := ⟨4, 5, 0.70, 1.5, 1.4, 30, 0.15, 200⟩

/-- `part_000` lines 260-267 (`creditsPerConversation` memo). -/
def creditsPerConversation (config : Config) : ℚ :=
  let classicTurns := config.turnsPerConversation * (1 - config.generativeRatio)
  let generativeTurns := config.turnsPerConversation * config.generativeRatio
  let classicCredits := classicTurns * 1
  let generativeCredits := generativeTurns * 2
  let actionCredits := config.actionsPerConversation * 5
  classicCredits + generativeCredits + actionCredits

end P0

/-- The 36-month record interface, declared identically as `MonthlyData` in
`part_000` (lines 25-39) and `part_002` (lines 20-34). -/
structure RMonthlyData where
  month : ℕ
  year : String
  users : ℤ
  dau : ℚ
  dauPercent : ℚ
  activeUsers : ℤ
  conversations : ℤ
  credits : ℤ
  paygCost : ℤ
  p3Cost : ℤ
  paygM365Cost : ℤ
  p3M365Cost : ℤ
  m365AllCost : ℤ

namespace P0

/-- One iteration of the `month = 1..36` loop of `part_000`
`monthlyData` (lines 288-360): config-driven usage with working days 22 and
the every-6th-month peak multiplier. -/
def monthRecord (stages : List Stage) (config : Config) (month : ℕ) :
    RMonthlyData :=
  let sb := stagesBeforeM stages month
  let sa := stagesAfterM stages month
  let users := jsRound (interpolateValue month sb sa Stage.users)
  let dau := interpolateValue month sb sa Stage.dau
  let activeUsers := jsRound ((users : ℚ) * dau)
  let multiplier := if month % 6 = 0 then config.peakMultiplier else 1
  let conversations := (activeUsers : ℚ) * config.conversationsPerDay * 22 * multiplier
  let totalCredits := conversations * creditsPerConversation config
  let paygRate : ℚ := 1/100
  let p3Discount : ℚ := 15/100
  let paygCost := totalCredits * paygRate
  let p3Cost := totalCredits * paygRate * (1 - p3Discount)
  let m365Users := min config.hybridM365Users (users : ℚ)
  let paygUsers := (users : ℚ) - m365Users
  let m365ActiveUsers := jsRound (m365Users * dau)
  let paygActiveUsers := jsRound (paygUsers * dau)
  let m365Conversations := (m365ActiveUsers : ℚ) * config.conversationsPerDay * 22 * multiplier
  let paygConversations := (paygActiveUsers : ℚ) * config.conversationsPerDay * 22 * multiplier
  let m365AutonomousCredits :=
    m365Conversations * config.actionsPerConversation * config.autonomousActionRatio * 5
  let paygCredits := paygConversations * creditsPerConversation config
  let paygM365Cost :=
    m365Users * config.m365CopilotPrice + (m365AutonomousCredits + paygCredits) * paygRate
  let p3M365Cost :=
    m365Users * config.m365CopilotPrice +
      (m365AutonomousCredits + paygCredits) * paygRate * (1 - p3Discount)
  let m365AllCost := (users : ℚ) * config.m365CopilotPrice
  { month := month
    year := if month ≤ 12 then "Year 1" else if month ≤ 24 then "Year 2" else "Year 3"
    users := users
    dau := dau
    dauPercent := dau * 100
    activeUsers := activeUsers
    conversations := jsRound conversations
    credits := jsRound totalCredits
    paygCost := jsRound paygCost
    p3Cost := jsRound p3Cost
    paygM365Cost := jsRound paygM365Cost
    p3M365Cost := jsRound p3M365Cost
    m365AllCost := jsRound m365AllCost }

/-- `part_000` lines 288-360: the full 36-month series (the loop body is
independent across months, so it is a map over the month range). -/
def monthlyData (stages : List Stage) (config : Config) : List RMonthlyData :=
  (List.range 36).map fun i => monthRecord stages config (i + 1)

/-- `part_000` line 447 (inside `agentMonthlyCosts`):
`stages.find(s => s.month <= month) || stages[0]` — a forward scan taking
the FIRST stage whose month has been reached. -/
def currentStageFwd (stages : List Stage) (month : ℕ) : Stage :=
  (stages.find? fun s => decide (s.month ≤ month)).getD (stages.headD undefStage)

/-- `part_000` line 525 (inside `licensingImpact`):
`const BREAKEVEN_CREDITS = 3000;` — a hardcoded literal, not derived from
the seat price and the PAYG rate. -/
def licensingImpactBreakevenCredits : ℚ := 3000

/-- `part_000` line 558: `recommendM365: avgCreditsPerUserMonth > BREAKEVEN_CREDITS`
with the hardcoded local constant above. -/
def recommendM365 (avgCreditsPerUserMonth : ℚ) : Bool :=
  licensingImpactBreakevenCredits < avgCreditsPerUserMonth

end P0

namespace P2

/-- `part_002` `Config` interface (lines 14-18). -/
structure Config where
  m365CopilotPrice : ℚ
  autonomousActionRatio : ℚ
  hybridM365Users : ℚ

/-- `part_002` lines 79-83: default configuration state. -/
def defaultConfig : Config := ⟨30, 0.15, 200⟩

/-- `part_002` lines 182-188 (`calculateAgentCredits`). -/
def calculateAgentCredits (agent : Agent) : ℚ :=
  let classicCredits := agent.turns * (1 - agent.generativeRatio) * 1
  let generativeCredits := agent.turns * agent.generativeRatio * 2
  let actionCredits := agent.actions * 5
  let graphCredits : ℚ := if agent.tenantGraph then 10 else 0
  classicCredits + generativeCredits + actionCredits + graphCredits

/-- `part_002` lines 246, 419, 563:
`[...stages].reverse().find(s => s.month <= month) || stages[0]` — "Find the
last stage that has started (not the first one)". -/
def currentStageRev (stages : List Stage) (month : ℕ) : Stage :=
  (stages.reverse.find? fun s => decide (s.month ≤ month)).getD
    (stages.headD undefStage)

/-- The segment-eligibility block, duplicated verbatim in `part_002` at
lines 260-277 (`monthlyData`), 421-440 (`agentMonthlyCosts`) and 564-581
(`licensingBreakpoint`, with a single segment). -/
def eligibleForSegments (segments : List String) (phase : String)
    (users : ℤ) : ℤ :=
  if segments.contains "All" then users
  else if segments.contains "Stores" then users
  else if segments.contains "Management" then
    if phase = "Management" ∨ phase = "Stores" ∨ phase = "Enterprise" then users
    else if phase = "Expansion" then jsRound ((users : ℚ) * 0.4)
    else 0
  else if segments.contains "HQ" then
    if phase = "Pilot" ∨ phase = "Expansion" then users
    else jsRound ((users : ℚ) * 0.15)
  else 0

/-- The body of the `agents.forEach` of `part_002` `monthlyData`
(lines 253-289): skip disabled or not-yet-deployed agents, otherwise add the
agent's conversations, credits and action volume to the running
`(totalConversations, totalCredits, totalActionsForM365)` triple. -/
def accumStep (phase : String) (month : ℕ) (users : ℤ) (dau : ℚ)
    (acc : ℚ × ℚ × ℚ) (agent : Agent) : ℚ × ℚ × ℚ :=
  if !agent.enabled || decide (month < agent.deployMonth) then acc
  else
    let eligibleUsers := eligibleForSegments agent.segments phase users
    let agentActiveUsers := jsRound ((eligibleUsers : ℚ) * dau)
    let agentConversations := (agentActiveUsers : ℚ) * agent.conversationsPerDay * 30
    let agentCredits := agentConversations * calculateAgentCredits agent
    (acc.1 + agentConversations, acc.2.1 + agentCredits,
      acc.2.2 + agentConversations * agent.actions)

/-- The `agents.forEach` accumulation of `part_002` `monthlyData`
(lines 253-289): returns `(totalConversations, totalCredits,
totalActionsForM365)`. -/
def accumulate (phase : String) (agents : List Agent) (month : ℕ)
    (users : ℤ) (dau : ℚ) : ℚ × ℚ × ℚ :=
  agents.foldl (accumStep phase month users dau) (0, 0, 0)

/-- `part_002` line 303: `users > 0 ? paygUsers / users : 0` with
`paygUsers = users − min(hybridM365Users, users)`. -/
def userRatio (config : Config) (users : ℤ) : ℚ :=
  if (0 : ℚ) < (users : ℚ) then
    ((users : ℚ) - min config.hybridM365Users (users : ℚ)) / (users : ℚ)
  else 0

/-- One iteration of the `month = 1..36` loop of `part_002` `monthlyData`
(lines 235-328): per-agent aggregation plus the five pricing models. -/
def monthRecord (stages : List Stage) (agents : List Agent) (config : Config)
    (month : ℕ) : RMonthlyData :=
  let sb := stagesBeforeM stages month
  let sa := stagesAfterM stages month
  let users := jsRound (interpolateValue month sb sa Stage.users)
  let dau := interpolateValue month sb sa Stage.dau
  let activeUsers := jsRound ((users : ℚ) * dau)
  let currentStage := currentStageRev stages month
  let acc := accumulate currentStage.phase agents month users dau
  let totalConversations := acc.1
  let totalCredits := acc.2.1
  let totalActionsForM365 := acc.2.2
  let paygRate : ℚ := 1/100
  let p3Discount : ℚ := 15/100
  let paygCost := totalCredits * paygRate
  let p3Cost := totalCredits * paygRate * (1 - p3Discount)
  let m365Users := min config.hybridM365Users (users : ℚ)
  let ur := userRatio config users
  let paygCredits := totalCredits * ur
  let m365AutonomousCredits :=
    totalActionsForM365 * (1 - ur) * config.autonomousActionRatio * 5
  let paygM365Cost :=
    m365Users * config.m365CopilotPrice + (m365AutonomousCredits + paygCredits) * paygRate
  let p3M365Cost :=
    m365Users * config.m365CopilotPrice +
      (m365AutonomousCredits + paygCredits) * paygRate * (1 - p3Discount)
  let m365AllCost := (users : ℚ) * config.m365CopilotPrice
  { month := month
    year := if month ≤ 12 then "Year 1" else if month ≤ 24 then "Year 2" else "Year 3"
    users := users
    dau := dau
    dauPercent := dau * 100
    activeUsers := activeUsers
    conversations := jsRound totalConversations
    credits := jsRound totalCredits
    paygCost := jsRound paygCost
    p3Cost := jsRound p3Cost
    paygM365Cost := jsRound paygM365Cost
    p3M365Cost := jsRound p3M365Cost
    m365AllCost := jsRound m365AllCost }

/-- `part_002` lines 229-331: the full 36-month series. -/
def monthlyData (stages : List Stage) (agents : List Agent) (config : Config) :
    List RMonthlyData :=
  (List.range 36).map fun i => monthRecord stages agents config (i + 1)

/-- `pricingSummary` "PAYG Alone" 3-year total (`part_002` lines 334-384):
the three year-slice sums of the rounded monthly `paygCost` add back up to
the sum over all 36 months. -/
def paygAloneTotal (stages : List Stage) (agents : List Agent)
    (config : Config) : ℤ :=
  ((monthlyData stages agents config).map (·.paygCost)).sum

/-- `pricingSummary` "M365 Copilot for All" 3-year total. -/
def m365AllTotal (stages : List Stage) (agents : List Agent)
    (config : Config) : ℤ :=
  ((monthlyData stages agents config).map (·.m365AllCost)).sum

/-- `part_002` line 497: `agents.filter(a => a.enabled)`. -/
def enabledAgents (agents : List Agent) : List Agent :=
  agents.filter (·.enabled)

/-- `part_002` line 532. -/
def avgCreditsPerConv (enabled : List Agent) : ℚ :=
  (enabled.map calculateAgentCredits).sum / (enabled.length : ℚ)

/-- `part_002` line 533. -/
def avgConversationsPerDay (enabled : List Agent) : ℚ :=
  (enabled.map (·.conversationsPerDay)).sum / (enabled.length : ℚ)

/-- `part_002` line 534 (`Math.round` of the mean deploy month). -/
def avgDeployMonth (enabled : List Agent) : ℤ :=
  jsRound ((enabled.map fun a => (a.deployMonth : ℚ)).sum / (enabled.length : ℚ))

/-- One `segmentCounts.set` update of `part_002` lines 537-542: JavaScript
`Map` iteration is insertion order, so the counts are an association list
keeping first-insertion positions. -/
def bumpCount (counts : List (String × ℕ)) (seg : String) :
    List (String × ℕ) :=
  if counts.any fun c => c.1 == seg then
    counts.map fun c => if c.1 == seg then (c.1, c.2 + 1) else c
  else counts ++ [(seg, 1)]

/-- `part_002` lines 537-542: the segment frequency table in insertion
order. -/
def segmentCounts (enabled : List Agent) : List (String × ℕ) :=
  enabled.foldl (fun counts a => a.segments.foldl bumpCount counts) []

/-- `part_002` line 543: stable sort by count descending, take the first —
equivalently, the earliest-inserted entry with the strictly largest count. -/
def mostCommonSegment (enabled : List Agent) : String :=
  let counts := segmentCounts enabled
  (counts.foldl (fun best c => if best.2 < c.2 then c else best)
    (counts.headD ("", 0))).1

/-- The inner 36-month loop of the breakpoint simulation (`part_002`
lines 554-590) for ONE simulated average agent: skips months before the
average deploy month, costs the remaining months with the average usage
figures under the ordinary segment-eligibility rules.  The source adds
`monthlyCost × additionalAgents` per month, i.e. `N` simulated agents cost
`N` times this total. -/
def simAgentTotal (stages : List Stage) (agents : List Agent) (config : Config)
    (seg : String) (avgConv avgCred : ℚ) (avgDeploy : ℤ) : ℚ :=
  ((List.range 36).map fun i =>
    let month : ℕ := i + 1
    if ((month : ℤ) < avgDeploy) then (0 : ℚ)
    else
      let md := monthRecord stages agents config month
      let currentStage := currentStageRev stages month
      let eligibleUsers := eligibleForSegments [seg] currentStage.phase md.users
      let activeUsers := jsRound ((eligibleUsers : ℚ) * md.dau)
      (activeUsers : ℚ) * avgConv * 30 * avgCred * (1/100)).sum

/-- The simulated one-agent 3-year total with the average characteristics of
the currently enabled agents. -/
def breakpointSimTotal (stages : List Stage) (agents : List Agent)
    (config : Config) : ℚ :=
  let e := enabledAgents agents
  simAgentTotal stages agents config (mostCommonSegment e)
    (avgConversationsPerDay e) (avgCreditsPerConv e) (avgDeployMonth e)

/-- Result record of `licensingBreakpoint` (`part_002` lines 496-622). -/
structure BreakpointResult where
  currentAgentCount : ℕ
  currentPaygTotal : ℤ
  currentM365Total : ℤ
  breakpointAgentCount : ℕ
  breakpointPaygTotal : ℤ
  additionalAgents : ℕ
  hasBreakpoint : Bool
  message : String

/-- The `for (additionalAgents = 1; ... <= 200; ...)` scan of `part_002`
lines 550-608: first `n` (ascending) with
`currentPaygTotal + simTotal × n ≥ currentM365Total`. -/
def findBreakN (payg m365 simTotal : ℚ) : ℕ → ℕ → Option ℕ
  | 0, _ => none
  | fuel + 1, n =>
    if m365 ≤ payg + simTotal * n then some n
    else findBreakN payg m365 simTotal fuel (n + 1)

/-- `part_002` lines 496-622 (`licensingBreakpoint`). -/
def licensingBreakpoint (stages : List Stage) (agents : List Agent)
    (config : Config) : BreakpointResult :=
  let enabled := enabledAgents agents
  if enabled.length = 0 then
    ⟨0, 0, 0, 0, 0, 0, false, "No agents enabled"⟩
  else
    let currentPaygTotal := paygAloneTotal stages agents config
    let currentM365Total := m365AllTotal stages agents config
    if currentM365Total ≤ currentPaygTotal then
      ⟨enabled.length, currentPaygTotal, currentM365Total, enabled.length,
        currentPaygTotal, 0, true,
        "M365 Copilot for All is already more economical at current scale"⟩
    else
      let simTotal := breakpointSimTotal stages agents config
      match findBreakN (currentPaygTotal : ℚ) (currentM365Total : ℚ) simTotal 200 1 with
      | some n =>
        ⟨enabled.length, currentPaygTotal, currentM365Total, enabled.length + n,
          jsRound ((currentPaygTotal : ℚ) + simTotal * n), n, true,
          "With your current onboarding plan, you have headroom for " ++
            toString n ++ " more agents before M365 Copilot for All becomes more economical"⟩
      | none =>
        ⟨enabled.length, currentPaygTotal, currentM365Total, enabled.length + 200,
          0, 200, false,
          "PAYG remains more economical even with 200+ additional agents given your onboarding plan"⟩

/-- The unrounded `totalConversations` accumulator of `part_002`
`monthlyData` at a given month (the quantity the `conversations` field
rounds). -/
def convVolume (stages : List Stage) (agents : List Agent) (month : ℕ) : ℚ :=
  let sb := stagesBeforeM stages month
  let sa := stagesAfterM stages month
  let users := jsRound (interpolateValue month sb sa Stage.users)
  let dau := interpolateValue month sb sa Stage.dau
  (accumulate (currentStageRev stages month).phase agents month users dau).1

end P2

/-! ## Lemmas for the 24-month adoption schedule (claim C1) -/

namespace Calcs

@[simp] lemma mkRec_adoption (p : CalculationParams) (m : ℕ) (a : ℚ) :
    (mkRec p m a).adoption = a := rfl

lemma cmdLoop_length (p : CalculationParams) :
    ∀ (fuel month : ℕ) (cur : ℚ), (cmdLoop p fuel month cur).length = fuel
  | 0, _, _ => rfl
  | fuel + 1, month, cur => by
    simp [cmdLoop, cmdLoop_length p fuel]

/-- While `month + i ≤ 12`, the record at offset `i` carries the linear-cap
adoption recomputed from the base, regardless of the incoming accumulator. -/
lemma cmdLoop_get_le12 (p : CalculationParams) :
    ∀ (fuel month : ℕ) (cur : ℚ) (i : ℕ), i < fuel → month + i ≤ 12 →
      (cmdLoop p fuel month cur)[i]? =
        some (mkRec p (month + i)
          (min p.adoptionCeiling (10 + (((month + i : ℕ) : ℚ) - 1) * p.year1GrowthRate)))
  | 0, _, _, i, h, _ => absurd h (Nat.not_lt_zero i)
  | fuel + 1, month, cur, 0, _, h12 => by
    have hm : month ≤ 12 := by omega
    simp [cmdLoop, adoptionStep, if_pos hm]
  | fuel + 1, month, cur, i + 1, h, h12 => by
    have hrec := cmdLoop_get_le12 p fuel (month + 1) (adoptionStep p month cur) i
      (by omega) (by omega)
    have harith : month + 1 + i = month + (i + 1) := by omega
    rw [harith] at hrec
    simpa [cmdLoop] using hrec

/-- From month 13 on the accumulator is carried through unchanged. -/
lemma cmdLoop_get_frozen (p : CalculationParams) :
    ∀ (fuel month : ℕ) (cur : ℚ) (i : ℕ), i < fuel → 13 ≤ month →
      (cmdLoop p fuel month cur)[i]? = some (mkRec p (month + i) cur)
  | 0, _, _, i, h, _ => absurd h (Nat.not_lt_zero i)
  | fuel + 1, month, cur, 0, _, h13 => by
    have hm : ¬ month ≤ 12 := by omega
    simp [cmdLoop, adoptionStep, if_neg hm]
  | fuel + 1, month, cur, i + 1, h, h13 => by
    have hm : ¬ month ≤ 12 := by omega
    have hrec := cmdLoop_get_frozen p fuel (month + 1) (adoptionStep p month cur) i
      (by omega) (by omega)
    have harith : month + 1 + i = month + (i + 1) := by omega
    rw [harith] at hrec
    simpa [cmdLoop, adoptionStep, if_neg hm] using hrec

/-- Crossing the year boundary: a record at a month ≥ 13 reached from a
month ≤ 12 carries the month-12 value `min(ceiling, 10 + 11·growth)`. -/
lemma cmdLoop_get_cross (p : CalculationParams) :
    ∀ (fuel month : ℕ) (cur : ℚ) (i : ℕ), i < fuel → month ≤ 12 → 13 ≤ month + i →
      (cmdLoop p fuel month cur)[i]? =
        some (mkRec p (month + i)
          (min p.adoptionCeiling (10 + 11 * p.year1GrowthRate)))
  | 0, _, _, i, h, _, _ => absurd h (Nat.not_lt_zero i)
  | fuel + 1, month, cur, 0, _, h12, h13 => by omega
  | fuel + 1, month, cur, i + 1, h, h12, h13 => by
    by_cases hnext : month + 1 ≤ 12
    · have hrec := cmdLoop_get_cross p fuel (month + 1) (adoptionStep p month cur) i
        (by omega) hnext (by omega)
      have harith : month + 1 + i = month + (i + 1) := by omega
      rw [harith] at hrec
      simpa [cmdLoop] using hrec
    · have hm12 : month = 12 := by omega
      subst hm12
      have hstep : adoptionStep p 12 cur =
          min p.adoptionCeiling (10 + 11 * p.year1GrowthRate) := by
        unfold adoptionStep
        norm_num
      have hrec := cmdLoop_get_frozen p fuel 13 (adoptionStep p 12 cur) i
        (by omega) (by omega)
      have harith : 13 + i = 12 + (i + 1) := by omega
      rw [harith] at hrec
      simpa [cmdLoop, hstep] using hrec

end Calcs

/-- The C1 statement: 24 records; for months `m ≤ 12` the adoption is the
non-compounding linear-cap recomputation `min(ceiling, 10 + (m−1)·growth)`;
for months `13 ≤ m` the adoption equals the month-12 record's value. -/
def Claim1Prop (p : Calcs.CalculationParams) (m : ℕ) : Prop :=
  (Calcs.calculateMonthlyData p).length = 24 ∧
  (m ≤ 12 →
    ((Calcs.calculateMonthlyData p)[m - 1]?).map Calcs.MonthlyData.adoption =
      some (min p.adoptionCeiling (10 + ((m : ℚ) - 1) * p.year1GrowthRate))) ∧
  (13 ≤ m →
    ((Calcs.calculateMonthlyData p)[m - 1]?).map Calcs.MonthlyData.adoption =
      ((Calcs.calculateMonthlyData p)[11]?).map Calcs.MonthlyData.adoption)

/-- C1: for every parameter set, `calculateMonthlyData` returns 24 monthly
records; for each month `1 ≤ m ≤ 12` the adoption equals
`min(adoptionCeilingPercent, 10 + (m−1)·year1MonthlyGrowthPercent)` (a
linear-cap recomputation, not compounding), and for each month
`13 ≤ m ≤ 24` the adoption equals the month-12 value unchanged. -/
theorem claim1_adoption_schedule (p : Calcs.CalculationParams) (m : ℕ)
    (h1 : 1 ≤ m) (h2 : m ≤ 24) : Claim1Prop p m := by
  refine ⟨Calcs.cmdLoop_length p 24 1 10, ?_, ?_⟩
  · intro hm
    rw [Calcs.calculateMonthlyData,
      Calcs.cmdLoop_get_le12 p 24 1 10 (m - 1) (by omega) (by omega)]
    have harith : 1 + (m - 1) = m := by omega
    rw [harith]
    simp
  · intro hm
    rw [Calcs.calculateMonthlyData,
      Calcs.cmdLoop_get_cross p 24 1 10 (m - 1) (by omega) (by omega) (by omega),
      Calcs.cmdLoop_get_le12 p 24 1 10 11 (by omega) (by omega)]
    norm_num

/-- Parameters of the test suite's `baseParams`
(`calculations.test.ts` lines 64-72). -/
def calcBaseParams : Calcs.CalculationParams := ⟨1300, (80, 20), 75, 600, 15, 80, 60⟩

/-- Witness for C1 at the test suite's base parameters and month 2. -/
theorem claim1_adoption_schedule_witness :
    (1 ≤ 2 ∧ 2 ≤ 24) ∧ Claim1Prop calcBaseParams 2 :=
  ⟨⟨by norm_num, by norm_num⟩,
    claim1_adoption_schedule calcBaseParams 2 (by norm_num) (by norm_num)⟩

/-! ## Claim C2: current-phase selection -/

/-- C2: evaluation of the two snapshots' current-stage selections at the
default stage list and month 36.  The `part_002` selection
(`[...stages].reverse().find(s => s.month <= month)`, commented "Find the
last stage that has started (not the first one)") returns the latest stage
whose month is ≤ 36 — the month-31 "Enterprise" stage.  The `part_000`
`agentMonthlyCosts` selection (`stages.find(s => s.month <= month)`) scans
from the front and returns the month-1 "Pilot" stage instead, so an
HQ-only agent is billed for the full user base at month 36 (30000 users)
rather than the 15% HQ share (4500), and a Management-segment agent for 0
users, contradicting part_000's own comment that Management is available
from the "HQ + Mgmt" stage onwards. -/
theorem claim2_current_phase_divergence :
    (P2.currentStageRev defaultStages 36).phase = "Enterprise" ∧
    (P2.currentStageRev defaultStages 36).month = 31 ∧
    (P0.currentStageFwd defaultStages 36).phase = "Pilot" ∧
    (P0.currentStageFwd defaultStages 36).month = 1 ∧
    defaultStages.map Stage.month = [1, 4, 7, 10, 13, 19, 31] ∧
    P2.eligibleForSegments ["HQ"] (P0.currentStageFwd defaultStages 36).phase 30000 = 30000 ∧
    P2.eligibleForSegments ["HQ"] (P2.currentStageRev defaultStages 36).phase 30000 = 4500 ∧
    P2.eligibleForSegments ["Management"] (P0.currentStageFwd defaultStages 36).phase 30000 = 0 ∧
    P2.eligibleForSegments ["Management"] (P2.currentStageRev defaultStages 36).phase 30000 = 30000 := by
  norm_num +decide [P2.currentStageRev, P0.currentStageFwd, defaultStages,
    P2.eligibleForSegments, jsRound]

/-! ## Claim C9: breakeven constant -/

/-- C9 counterexample: the claim says the breakeven constant is derived from
the seat price and the PAYG rate everywhere, so that changing the seat price
moves the threshold.  The `licensingImpact` block of `part_000` hardcodes the
literal 3000: at the allowed seat price 35 the derived threshold would be
3500, yet the hardcoded constant still recommends seat licensing at
3200 credits/user/month. -/
theorem claim9_hardcoded_breakeven :
    P0.licensingImpactBreakevenCredits = 3000 ∧
    (35 : ℚ) / Calcs.PAYG_RATE = 3500 ∧
    P0.licensingImpactBreakevenCredits ≠ (35 : ℚ) / Calcs.PAYG_RATE ∧
    P0.recommendM365 3200 = true ∧ ¬ ((3200 : ℚ) > (35 : ℚ) / Calcs.PAYG_RATE) := by
  constructor
  · rfl
  · refine ⟨by norm_num [Calcs.PAYG_RATE], ?_, ?_, ?_⟩
    · norm_num [P0.licensingImpactBreakevenCredits, Calcs.PAYG_RATE]
    · norm_num [P0.recommendM365, P0.licensingImpactBreakevenCredits]
    · norm_num [Calcs.PAYG_RATE]

/-- C9 amended: the exported calculations module derives
`BREAKEVEN_CREDITS = M365_COPILOT_COST / PAYG_RATE = 3000`; the
`licensingImpact` analysis in `part_000` instead carries its own hardcoded
3000 literal. -/
theorem claim9_breakeven_derivation :
    Calcs.BREAKEVEN_CREDITS = Calcs.M365_COPILOT_COST / Calcs.PAYG_RATE ∧
    Calcs.BREAKEVEN_CREDITS = 3000 ∧
    P0.licensingImpactBreakevenCredits = 3000 :=
  ⟨rfl, by norm_num [Calcs.BREAKEVEN_CREDITS, Calcs.M365_COPILOT_COST, Calcs.PAYG_RATE], rfl⟩

/-! ## Claim C3: peak multiplier -/

lemma rangeMap_getElem? {α : Type} (f : ℕ → α) (n i : ℕ) (h : i < n) :
    ((List.range n).map f)[i]? = some (f i) := by
  simp [List.getElem?_map, List.getElem?_range, h]

/-- The C3 statement for the config-driven projector: the record for month
`m` sits at index `m−1`, and its conversation count is the active-user
volume times `conversationsPerDay` times the 22 working days, times the
peak multiplier exactly when `m % 6 = 0` and times 1 otherwise. -/
def Claim3Prop (stages : List Stage) (config : P0.Config) (m : ℕ) : Prop :=
  (P0.monthlyData stages config)[m - 1]? = some (P0.monthRecord stages config m) ∧
  (P0.monthRecord stages config m).conversations =
    jsRound (((P0.monthRecord stages config m).activeUsers : ℚ) *
      config.conversationsPerDay * 22 *
      (if m % 6 = 0 then config.peakMultiplier else 1))

/-- C3 (amended): in the config-driven 36-month projector (`part_000`, and
the identical `monthlyData` of `part_001`'s second document) every month
with `m % 6 = 0` multiplies the conversation volume by the configurable
`peakMultiplier` (default 1.4) and every other month by 1.0.  (The
agent-portfolio projector of `part_002` applies no peak multiplier at all —
see the counterexample.) -/
theorem claim3_peak_multiplier (stages : List Stage) (config : P0.Config)
    (m : ℕ) (h1 : 1 ≤ m) (h2 : m ≤ 36) : Claim3Prop stages config m := by
  constructor
  · unfold P0.monthlyData
    rw [rangeMap_getElem? _ 36 (m - 1) (by omega)]
    have harith : m - 1 + 1 = m := by omega
    rw [harith]
  · rfl

/-- Witness for the amended C3 at the default inputs and peak month 6. -/
theorem claim3_peak_multiplier_witness :
    (1 ≤ 6 ∧ 6 ≤ 36) ∧ Claim3Prop defaultStages P0.defaultConfig 6 :=
  ⟨⟨by norm_num, by norm_num⟩,
    claim3_peak_multiplier defaultStages P0.defaultConfig 6 (by norm_num) (by norm_num)⟩

/-- C3 counterexample: in the agent-portfolio projector (`part_002`,
`monthlyData` lines 235-290) the month-6 record's conversation count equals
the plain (unmultiplied) conversation volume and differs from the value the
claim predicts (volume × the default 1.4 peak multiplier): month 6 is a
peak month, yet no multiplier is applied. -/
theorem claim3_no_peak_in_agent_projector :
    (P2.monthRecord defaultStages defaultAgents P2.defaultConfig 6).conversations =
      jsRound (P2.convVolume defaultStages defaultAgents 6) ∧
    (6 : ℕ) % 6 = 0 ∧
    P2.convVolume defaultStages defaultAgents 6 = 90825 / 2 ∧
    (P2.monthRecord defaultStages defaultAgents P2.defaultConfig 6).conversations ≠
      jsRound ((14 / 10) * P2.convVolume defaultStages defaultAgents 6) := by
  refine ⟨rfl, rfl, ?_, ?_⟩ <;>
    norm_num +decide [P2.monthRecord, P2.convVolume, P2.accumulate, P2.accumStep,
      P2.currentStageRev, P2.eligibleForSegments, P2.calculateAgentCredits, defaultStages,
      defaultAgents, stagesBeforeM, stagesAfterM, interpolateValue, jsRound,
      List.filter, List.foldl]

/-! ## Claim C6: scenario rounding point and known values -/

/-- The per-record rounding discipline of the scenario matrix: the displayed
`creditsPerUserMonth` field is rounded, while the monthly and yearly PAYG
costs are computed from the unrounded credits-per-user value. -/
def ScenarioRounding (simple complex : ℚ) (r : Calcs.ScenarioData) : Prop :=
  r.creditsPerUserMonth = jsRound (Calcs.scCred simple complex r.ratio) ∧
  r.monthlyPayg =
    jsRound ((r.activeUsers : ℚ) * Calcs.scCred simple complex r.ratio * Calcs.PAYG_RATE) ∧
  r.yearlyPayg =
    jsRound ((r.activeUsers : ℚ) * Calcs.scCred simple complex r.ratio * 12 * Calcs.PAYG_RATE)

/-- The known scenario of `calculations.test.ts` lines 154-174:
30000 users, ratio 50/50, 60% steady adoption, 75/600 credits. -/
def Claim6Concrete : Prop :=
  (Calcs.calculateScenarioComparison [30000] [100] [(50, 50)] 75 600 60).map
    (fun r => (r.activeUsers, r.creditsPerUserMonth, r.yearlyPayg)) = [(18000, 338, 729000)]

/-- C6: every record of the scenario matrix rounds only the displayed
credits-per-user field and computes the monthly/yearly PAYG money from the
unrounded value; at the known scenario this gives activeUsers 18000,
creditsPerUserPerMonth 338 (rounded from 337.5) and yearlyPaygCost 729000. -/
theorem claim6_scenario_rounding :
    (∀ (U A : List ℚ) (C : List (ℕ × ℕ)) (simple complex steady : ℚ)
      (r : Calcs.ScenarioData),
      r ∈ Calcs.calculateScenarioComparison U A C simple complex steady →
      ScenarioRounding simple complex r) ∧ Claim6Concrete := by
  constructor
  · intro U A C simple complex steady r hr
    simp only [Calcs.calculateScenarioComparison, List.mem_flatMap, List.mem_map] at hr
    obtain ⟨u, -, a, -, rt, -, rfl⟩ := hr
    exact ⟨rfl, rfl, rfl⟩
  · norm_num [Claim6Concrete, Calcs.calculateScenarioComparison, Calcs.mkScenario,
      Calcs.scCred, Calcs.PAYG_RATE, Calcs.M365_COPILOT_COST, jsRound]

/-- Witness for C6 at the known scenario's record. -/
theorem claim6_scenario_rounding_witness :
    (Calcs.mkScenario 75 600 60 30000 100 (50, 50) ∈
      Calcs.calculateScenarioComparison [30000] [100] [(50, 50)] 75 600 60) ∧
    ScenarioRounding 75 600 (Calcs.mkScenario 75 600 60 30000 100 (50, 50)) :=
  ⟨by simp [Calcs.calculateScenarioComparison],
    claim6_scenario_rounding.1 [30000] [100] [(50, 50)] 75 600 60 _
      (by simp [Calcs.calculateScenarioComparison])⟩

/-! ## Claim C8: the agent-count label does not affect the cost fields -/

/-- Every `ScenarioData` field except the carried agent-count label. -/
def scenarioCore (r : Calcs.ScenarioData) :
    ℚ × (ℕ × ℕ) × ℤ × ℤ × ℤ × ℤ × ℚ × ℤ × ℤ :=
  (r.users, r.ratio, r.activeUsers, r.creditsPerUserMonth, r.monthlyPayg,
    r.yearlyPayg, r.yearlyM365, r.savings, r.savingsPercent)

lemma claim8_inner (s c st u : ℚ) (C : List (ℕ × ℕ)) :
    ∀ (A A' : List ℚ), A.length = A'.length →
      ((A.flatMap fun a => C.map fun r => Calcs.mkScenario s c st u a r).map scenarioCore) =
      ((A'.flatMap fun a => C.map fun r => Calcs.mkScenario s c st u a r).map scenarioCore)
  | [], [], _ => rfl
  | a :: A, a' :: A', h => by
    simp only [List.flatMap_cons, List.map_append]
    rw [claim8_inner s c st u C A A' (by simpa using h)]
    congr 1
    simp only [List.map_map]
    rfl
  | [], _ :: _, h => by simp at h
  | _ :: _, [], h => by simp at h

/-- C8: two scenario-matrix invocations that differ only in the agent-count
labels (lists of equal length) agree, record by record, on every field
except the carried label itself. -/
theorem claim8_label_noninterference (U A A' : List ℚ) (C : List (ℕ × ℕ))
    (s c st : ℚ) (h : A.length = A'.length) :
    (Calcs.calculateScenarioComparison U A C s c st).map scenarioCore =
    (Calcs.calculateScenarioComparison U A' C s c st).map scenarioCore := by
  unfold Calcs.calculateScenarioComparison
  induction U with
  | nil => rfl
  | cons u U ih =>
    simp only [List.flatMap_cons, List.map_append]
    rw [ih, claim8_inner s c st u C A A' h]

/-- Witness for C8 with the default agent labels against fresh labels. -/
theorem claim8_label_noninterference_witness :
    ([10, 30, 100] : List ℚ).length = ([1, 2, 3] : List ℚ).length ∧
    (Calcs.calculateScenarioComparison [1300] [10, 30, 100] [(80, 20)] 75 600 60).map
        scenarioCore =
      (Calcs.calculateScenarioComparison [1300] [1, 2, 3] [(80, 20)] 75 600 60).map
        scenarioCore :=
  ⟨rfl, claim8_label_noninterference [1300] [10, 30, 100] [1, 2, 3] [(80, 20)] 75 600 60 rfl⟩

/-! ## Claim C10: zero interpolated users in the hybrid models -/

lemma eligibleForSegments_zero (segments : List String) (phase : String) :
    P2.eligibleForSegments segments phase 0 = 0 := by
  unfold P2.eligibleForSegments
  split_ifs <;> norm_num [jsRound]

lemma accumStep_zero_users (phase : String) (month : ℕ) (dau : ℚ)
    (acc : ℚ × ℚ × ℚ) (agent : Agent) :
    P2.accumStep phase month 0 dau acc agent = acc := by
  unfold P2.accumStep
  split
  · rfl
  · rw [eligibleForSegments_zero]
    norm_num [jsRound]

lemma foldl_fixed {α β : Type} (f : β → α → β) (hf : ∀ b a, f b a = b) :
    ∀ (l : List α) (init : β), l.foldl f init = init
  | [], _ => rfl
  | a :: l, init => by rw [List.foldl_cons, hf init a, foldl_fixed f hf l]

lemma accumulate_zero_users (phase : String) (agents : List Agent)
    (month : ℕ) (dau : ℚ) :
    P2.accumulate phase agents month 0 dau = (0, 0, 0) :=
  foldl_fixed _ (accumStep_zero_users phase month dau) agents (0, 0, 0)

/-- The C10 statement: when the interpolated user count at a month is 0, the
hybrid split uses `userRatio = 0` (no division by zero) and the month's five
cost fields are all the well-defined number 0 — in particular the two
hybrid models' usage components vanish and the seat component is
`min(hybridM365Users, 0) × price = 0`. -/
def Claim10Prop (stages : List Stage) (agents : List Agent) (config : P2.Config)
    (month : ℕ) : Prop :=
  (P2.monthRecord stages agents config month).users = 0 ∧
  P2.userRatio config 0 = 0 ∧
  min config.hybridM365Users (0 : ℚ) = 0 ∧
  (P2.monthRecord stages agents config month).paygCost = 0 ∧
  (P2.monthRecord stages agents config month).p3Cost = 0 ∧
  (P2.monthRecord stages agents config month).paygM365Cost = 0 ∧
  (P2.monthRecord stages agents config month).p3M365Cost = 0 ∧
  (P2.monthRecord stages agents config month).m365AllCost = 0

/-- C10: in the agent-portfolio projector's hybrid pricing models, a month
whose interpolated total user count is 0 produces `userRatio = 0` instead of
a division by zero, and all five monthly cost fields equal 0. -/
theorem claim10_zero_users_guard (stages : List Stage) (agents : List Agent)
    (config : P2.Config) (month : ℕ)
    (hh : 0 ≤ config.hybridM365Users)
    (hu : jsRound (interpolateValue month (stagesBeforeM stages month)
      (stagesAfterM stages month) Stage.users) = 0) :
    Claim10Prop stages agents config month := by
  have hmin : min config.hybridM365Users (0 : ℚ) = 0 := min_eq_right hh
  unfold Claim10Prop P2.monthRecord
  simp only [hu, accumulate_zero_users, P2.userRatio]
  norm_num [jsRound, hmin]

/-- A single-stage rollout whose only stage has 0 users. -/
def zeroUserStages : List Stage := [⟨"Empty", 0, 1, 0.45, "Pilot"⟩]

/-- Witness for C10: a stage list whose interpolated user count at month 1
is 0, with the default agents and configuration. -/
theorem claim10_zero_users_guard_witness :
    (0 ≤ P2.defaultConfig.hybridM365Users ∧
      jsRound (interpolateValue 1 (stagesBeforeM zeroUserStages 1)
        (stagesAfterM zeroUserStages 1) Stage.users) = 0) ∧
    Claim10Prop zeroUserStages defaultAgents P2.defaultConfig 1 :=
  ⟨⟨by norm_num [P2.defaultConfig],
    by norm_num +decide [zeroUserStages, stagesBeforeM, stagesAfterM,
      interpolateValue, jsRound]⟩,
    claim10_zero_users_guard zeroUserStages defaultAgents P2.defaultConfig 1
      (by norm_num [P2.defaultConfig])
      (by norm_num +decide [zeroUserStages, stagesBeforeM, stagesAfterM,
        interpolateValue, jsRound])⟩

/-! ## Claim C5: stage interpolation -/

/-- The stage list is sorted by strictly increasing anchor month. -/
def StageSorted (stages : List Stage) : Prop :=
  stages.Pairwise fun s t => s.month < t.month

lemma getLast?_month_max :
    ∀ (l : List Stage), l.Pairwise (fun s t => s.month < t.month) →
      ∀ b, l.getLast? = some b → b ∈ l ∧ ∀ s ∈ l, s.month ≤ b.month
  | [], _, b, hb => by simp at hb
  | [a], _, b, hb => by
    simp at hb
    subst hb
    exact ⟨by simp, by simp⟩
  | a :: c :: t, hp, b, hb => by
    rw [List.getLast?_cons_cons] at hb
    obtain ⟨hmem, hmax⟩ :=
      getLast?_month_max (c :: t) (List.pairwise_cons.mp hp).2 b hb
    refine ⟨List.mem_cons_of_mem a hmem, ?_⟩
    intro s hs
    rcases List.mem_cons.mp hs with rfl | hs'
    · exact le_of_lt ((List.pairwise_cons.mp hp).1 b hmem)
    · exact hmax s hs'

lemma head?_month_min :
    ∀ (l : List Stage), l.Pairwise (fun s t => s.month < t.month) →
      ∀ b, l.head? = some b → b ∈ l ∧ ∀ s ∈ l, b.month ≤ s.month
  | [], _, b, hb => by simp at hb
  | a :: t, hp, b, hb => by
    simp at hb
    subst hb
    refine ⟨by simp, ?_⟩
    intro s hs
    rcases List.mem_cons.mp hs with rfl | hs'
    · exact le_refl _
    · exact le_of_lt ((List.pairwise_cons.mp hp).1 s hs')

lemma interpolateValue_before_nil (month : ℕ) (after : List Stage)
    (getValue : Stage → ℚ) (a : Stage) (ha : after.head? = some a) :
    interpolateValue month [] after getValue = getValue a := by
  cases after with
  | nil => simp at ha
  | cons x xs =>
    simp at ha
    subst ha
    rfl

lemma interpolateValue_after_nil (month : ℕ) (before : List Stage)
    (getValue : Stage → ℚ) (b : Stage) (hb : before.getLast? = some b) :
    interpolateValue month before [] getValue = getValue b := by
  unfold interpolateValue
  rw [hb]
  rfl

lemma interpolateValue_both (month : ℕ) (before after : List Stage)
    (getValue : Stage → ℚ) (b a : Stage)
    (hb : before.getLast? = some b) (ha : after.head? = some a) :
    interpolateValue month before after getValue =
      getValue b + (getValue a - getValue b) *
        (((month : ℚ) - (b.month : ℚ)) / ((a.month : ℚ) - (b.month : ℚ))) := by
  unfold interpolateValue
  rw [hb, ha]

/-- The C5 statement for a month `M`: with no stage at or before `M` the
value flat-extrapolates backward from the earliest later stage; with no
stage after `M` it flat-extrapolates forward from the latest earlier stage;
otherwise it is the linear interpolation between the latest stage ≤ `M` and
the earliest stage > `M`; and the projector rounds the interpolated user
count while keeping the daily-active fraction fractional. -/
def Claim5Prop (stages : List Stage) (month : ℕ) (getValue : Stage → ℚ) : Prop :=
  (stagesBeforeM stages month = [] →
    ∃ a ∈ stages, month < a.month ∧
      (∀ s ∈ stages, month < s.month → a.month ≤ s.month) ∧
      interpolateValue month (stagesBeforeM stages month) (stagesAfterM stages month)
        getValue = getValue a) ∧
  (stagesAfterM stages month = [] →
    ∃ b ∈ stages, b.month ≤ month ∧
      (∀ s ∈ stages, s.month ≤ month → s.month ≤ b.month) ∧
      interpolateValue month (stagesBeforeM stages month) (stagesAfterM stages month)
        getValue = getValue b) ∧
  (stagesBeforeM stages month ≠ [] → stagesAfterM stages month ≠ [] →
    ∃ b ∈ stages, ∃ a ∈ stages,
      b.month ≤ month ∧ month < a.month ∧
      (∀ s ∈ stages, s.month ≤ month → s.month ≤ b.month) ∧
      (∀ s ∈ stages, month < s.month → a.month ≤ s.month) ∧
      interpolateValue month (stagesBeforeM stages month) (stagesAfterM stages month)
        getValue =
        getValue b + (getValue a - getValue b) *
          (((month : ℚ) - (b.month : ℚ)) / ((a.month : ℚ) - (b.month : ℚ)))) ∧
  (∀ (agents : List Agent) (config : P2.Config),
    (P2.monthRecord stages agents config month).users =
      jsRound (interpolateValue month (stagesBeforeM stages month)
        (stagesAfterM stages month) Stage.users) ∧
    (P2.monthRecord stages agents config month).dau =
      interpolateValue month (stagesBeforeM stages month)
        (stagesAfterM stages month) Stage.dau)

/-- C5: for every target month of the rollout projector over a non-empty,
strictly sorted stage list, the interpolation flat-extrapolates backward
and forward and linearly interpolates in between, rounding user counts and
not the daily-active fraction. -/
theorem claim5_interpolation (stages : List Stage) (hs : StageSorted stages)
    (hne : stages ≠ []) (month : ℕ) (getValue : Stage → ℚ) :
    Claim5Prop stages month getValue := by
  have hpb : (stagesBeforeM stages month).Pairwise (fun s t => s.month < t.month) :=
    hs.sublist (List.filter_sublist stages)
  have hpa : (stagesAfterM stages month).Pairwise (fun s t => s.month < t.month) :=
    hs.sublist (List.filter_sublist stages)
  refine ⟨?_, ?_, ?_, fun agents config => ⟨rfl, rfl⟩⟩
  · intro hb
    obtain ⟨s0, hs0⟩ := List.exists_mem_of_ne_nil stages hne
    have hane : stagesAfterM stages month ≠ [] := by
      intro h0
      by_cases hlt : month < s0.month
      · have : s0 ∈ stagesAfterM stages month :=
          List.mem_filter.mpr ⟨hs0, by simpa using hlt⟩
        rw [h0] at this
        simp at this
      · have : s0 ∈ stagesBeforeM stages month :=
          List.mem_filter.mpr ⟨hs0, by simpa using Nat.le_of_not_lt hlt⟩
        rw [hb] at this
        simp at this
    obtain ⟨a0, ha0⟩ : ∃ a0, (stagesAfterM stages month).head? = some a0 := by
      cases h : (stagesAfterM stages month).head? with
      | none => exact absurd (List.head?_eq_none_iff.mp h) hane
      | some a0 => exact ⟨a0, rfl⟩
    obtain ⟨hamem, hamin⟩ := head?_month_min _ hpa a0 ha0
    obtain ⟨haS, halt⟩ : a0 ∈ stages ∧ month < a0.month := by
      have := List.mem_filter.mp hamem
      exact ⟨this.1, by simpa using this.2⟩
    refine ⟨a0, haS, halt, ?_, ?_⟩
    · intro s hsm hslt
      exact hamin s (List.mem_filter.mpr ⟨hsm, by simpa using hslt⟩)
    · rw [hb]
      exact interpolateValue_before_nil month _ getValue a0 ha0
  · intro ha
    obtain ⟨s0, hs0⟩ := List.exists_mem_of_ne_nil stages hne
    have hbne : stagesBeforeM stages month ≠ [] := by
      intro h0
      by_cases hle : s0.month ≤ month
      · have : s0 ∈ stagesBeforeM stages month :=
          List.mem_filter.mpr ⟨hs0, by simpa using hle⟩
        rw [h0] at this
        simp at this
      · have : s0 ∈ stagesAfterM stages month :=
          List.mem_filter.mpr ⟨hs0, by simpa using Nat.lt_of_not_le hle⟩
        rw [ha] at this
        simp at this
    obtain ⟨b0, hb0⟩ : ∃ b0, (stagesBeforeM stages month).getLast? = some b0 :=
      ⟨_, List.getLast?_eq_getLast _ hbne⟩
    obtain ⟨hbmem, hbmax⟩ := getLast?_month_max _ hpb b0 hb0
    obtain ⟨hbS, hble⟩ : b0 ∈ stages ∧ b0.month ≤ month := by
      have := List.mem_filter.mp hbmem
      exact ⟨this.1, by simpa using this.2⟩
    refine ⟨b0, hbS, hble, ?_, ?_⟩
    · intro s hsm hsle
      exact hbmax s (List.mem_filter.mpr ⟨hsm, by simpa using hsle⟩)
    · rw [ha]
      exact interpolateValue_after_nil month _ getValue b0 hb0
  · intro hbne hane
    obtain ⟨b0, hb0⟩ : ∃ b0, (stagesBeforeM stages month).getLast? = some b0 :=
      ⟨_, List.getLast?_eq_getLast _ hbne⟩
    obtain ⟨a0, ha0⟩ : ∃ a0, (stagesAfterM stages month).head? = some a0 := by
      cases h : (stagesAfterM stages month).head? with
      | none => exact absurd (List.head?_eq_none_iff.mp h) hane
      | some a0 => exact ⟨a0, rfl⟩
    obtain ⟨hbmem, hbmax⟩ := getLast?_month_max _ hpb b0 hb0
    obtain ⟨hamem, hamin⟩ := head?_month_min _ hpa a0 ha0
    obtain ⟨hbS, hble⟩ : b0 ∈ stages ∧ b0.month ≤ month := by
      have := List.mem_filter.mp hbmem
      exact ⟨this.1, by simpa using this.2⟩
    obtain ⟨haS, halt⟩ : a0 ∈ stages ∧ month < a0.month := by
      have := List.mem_filter.mp hamem
      exact ⟨this.1, by simpa using this.2⟩
    refine ⟨b0, hbS, a0, haS, hble, halt, ?_, ?_, ?_⟩
    · intro s hsm hsle
      exact hbmax s (List.mem_filter.mpr ⟨hsm, by simpa using hsle⟩)
    · intro s hsm hslt
      exact hamin s (List.mem_filter.mpr ⟨hsm, by simpa using hslt⟩)
    · exact interpolateValue_both month _ _ getValue b0 a0 hb0 ha0

/-- Witness for C5 at the default stage list, month 6, on user counts. -/
theorem claim5_interpolation_witness :
    (StageSorted defaultStages ∧ defaultStages ≠ []) ∧
    Claim5Prop defaultStages 6 Stage.users :=
  ⟨⟨by unfold StageSorted; decide, by simp [defaultStages]⟩,
    claim5_interpolation defaultStages (by unfold StageSorted; decide)
      (by simp [defaultStages]) 6 Stage.users⟩

/-! ## Claim C4: licensing breakpoint search -/

lemma findBreakN_some (payg m365 s : ℚ) :
    ∀ (fuel n0 n : ℕ), P2.findBreakN payg m365 s fuel n0 = some n →
      n0 ≤ n ∧ n < n0 + fuel ∧ (m365 ≤ payg + s * n) ∧
      ∀ k, n0 ≤ k → k < n → ¬ (m365 ≤ payg + s * k)
  | 0, n0, n, h => by simp [P2.findBreakN] at h
  | fuel + 1, n0, n, h => by
    rw [P2.findBreakN] at h
    split_ifs at h with hc
    · injection h with h'
      subst h'
      exact ⟨le_refl _, by omega, hc, fun k hk1 hk2 => absurd hk1 (by omega)⟩
    · obtain ⟨h1, h2, h3, h4⟩ := findBreakN_some payg m365 s fuel (n0 + 1) n h
      refine ⟨by omega, by omega, h3, fun k hk1 hk2 => ?_⟩
      rcases Nat.lt_or_ge k (n0 + 1) with hk | hk
      · have hkn : k = n0 := by omega
        subst hkn
        exact hc
      · exact h4 k hk hk2

lemma findBreakN_none (payg m365 s : ℚ) :
    ∀ (fuel n0 : ℕ), P2.findBreakN payg m365 s fuel n0 = none →
      ∀ k, n0 ≤ k → k < n0 + fuel → ¬ (m365 ≤ payg + s * k)
  | 0, n0, _, k, hk1, hk2 => by omega
  | fuel + 1, n0, h, k, hk1, hk2 => by
    rw [P2.findBreakN] at h
    split_ifs at h with hc
    rcases Nat.lt_or_ge k (n0 + 1) with hk | hk
    · have hkn : k = n0 := by omega
      subst hkn
      exact hc
    · exact findBreakN_none payg m365 s fuel (n0 + 1) h k hk (by omega)

/-- The C4 statement.  Writing `payg` and `m365` for the current 3-year
PAYG-alone and flat-seat-for-all totals and `simTotal` for one simulated
average agent's 3-year cost: if `payg ≥ m365` the search reports a
breakpoint with zero additional agents; otherwise, if it reports a
breakpoint, the reported `N` is the smallest `1 ≤ N ≤ 200` whose projected
total `payg + simTotal·N` reaches `m365`; and if it reports none, no
`N ≤ 200` crosses and the result sits at the 200-agent cap. -/
def Claim4Prop (stages : List Stage) (agents : List Agent) (config : P2.Config) : Prop :=
  (P2.m365AllTotal stages agents config ≤ P2.paygAloneTotal stages agents config →
    (P2.licensingBreakpoint stages agents config).additionalAgents = 0 ∧
    (P2.licensingBreakpoint stages agents config).hasBreakpoint = true) ∧
  (P2.paygAloneTotal stages agents config < P2.m365AllTotal stages agents config →
    ((P2.licensingBreakpoint stages agents config).hasBreakpoint = true →
      1 ≤ (P2.licensingBreakpoint stages agents config).additionalAgents ∧
      (P2.licensingBreakpoint stages agents config).additionalAgents ≤ 200 ∧
      ((P2.m365AllTotal stages agents config : ℚ) ≤
        (P2.paygAloneTotal stages agents config : ℚ) +
          P2.breakpointSimTotal stages agents config *
            (P2.licensingBreakpoint stages agents config).additionalAgents) ∧
      ∀ k : ℕ, 1 ≤ k →
        k < (P2.licensingBreakpoint stages agents config).additionalAgents →
        ¬ ((P2.m365AllTotal stages agents config : ℚ) ≤
          (P2.paygAloneTotal stages agents config : ℚ) +
            P2.breakpointSimTotal stages agents config * k)) ∧
    ((P2.licensingBreakpoint stages agents config).hasBreakpoint = false →
      (P2.licensingBreakpoint stages agents config).additionalAgents = 200 ∧
      ∀ k : ℕ, 1 ≤ k → k ≤ 200 →
        ¬ ((P2.m365AllTotal stages agents config : ℚ) ≤
          (P2.paygAloneTotal stages agents config : ℚ) +
            P2.breakpointSimTotal stages agents config * k)))

/-- C4: the licensing-breakpoint search reports zero additional agents (with
a breakpoint) whenever the current PAYG-alone 3-year total already reaches
the flat-seat-for-all total; otherwise it returns the smallest `N` with
`1 ≤ N ≤ 200` whose `N` simulated average agents push the projected
PAYG-alone total to the flat-seat total, and if no `N ≤ 200` crosses it
reports `hasBreakpoint = false` at the 200-agent cap. -/
theorem claim4_breakpoint_scan (stages : List Stage) (agents : List Agent)
    (config : P2.Config) (h : (P2.enabledAgents agents).length ≠ 0) :
    Claim4Prop stages agents config := by
  unfold Claim4Prop
  simp only [P2.licensingBreakpoint]
  rw [if_neg h]
  split_ifs with hcmp
  · refine ⟨fun _ => ⟨rfl, rfl⟩, fun hlt => absurd hcmp (by omega)⟩
  · refine ⟨fun hle => absurd hle hcmp, fun _ => ?_⟩
    cases hfb : P2.findBreakN (P2.paygAloneTotal stages agents config : ℚ)
        (P2.m365AllTotal stages agents config : ℚ)
        (P2.breakpointSimTotal stages agents config) 200 1 with
    | some n =>
      obtain ⟨h1, h2, h3, h4⟩ := findBreakN_some _ _ _ 200 1 n hfb
      exact ⟨fun _ => ⟨h1, show n ≤ 200 by omega, h3, fun k hk1 hk2 => h4 k hk1 hk2⟩,
        fun hfalse => absurd hfalse (by simp)⟩
    | none =>
      have h0 := findBreakN_none _ _ _ 200 1 hfb
      exact ⟨fun htrue => absurd htrue (by simp),
        fun _ => ⟨rfl, fun k hk1 hk2 => h0 k hk1 (show k < 1 + 200 by omega)⟩⟩

/-- Witness for C4 at the default stages, agents and configuration. -/
theorem claim4_breakpoint_scan_witness :
    (P2.enabledAgents defaultAgents).length ≠ 0 ∧
    Claim4Prop defaultStages defaultAgents P2.defaultConfig :=
  ⟨by decide,
    claim4_breakpoint_scan defaultStages defaultAgents P2.defaultConfig (by decide)⟩
